import Mathlib

/-
Verification development for the dxc-scd-dse script suite.

The repository consists of five near-duplicate Python scripts that scan SQL
DDL files for table and column names matching fixed keyword sets:
  analysis-dean/schema-analyzer.py, analysis-dean/columns.py,
  analysis-dean/tables.py (two scripts concatenated in one file),
  analysis-dean/networks.py, npi_report.py.

Every script is a composition of the same few operations: read a file,
extract the database name with the regex USE\s+\[(\w+)\], iterate a
CREATE TABLE/VIEW block regex over the content, and match a keyword
alternation against either the column-definition text or the table name.

The development embeds the Python re fragment these scripts use with a
small backtracking matcher over lists of characters.  All patterns in the
source are compiled with re.IGNORECASE (plus DOTALL/MULTILINE, which only
matter for the dot, modelled by an any-character class), so the matcher
lowercases the subject once and compares literal characters lowercased.
The alternative lists returned by the matcher are ordered exactly as a
backtracking engine explores them, so the head of the list at the leftmost
matching position is the match Python re returns; finditer repeats that
search from the end of the previous match.  File reads are modelled as
Option String (none is a failed read), Python exceptions that escape a
function as Except.
-/

/- Character classes appearing in the source regexes. -/

def lowerL (s : List Char) : List Char := s.map Char.toLower

/-- Class \w of Python re (ASCII view, the inputs are SQL DDL text). -/
def isWordChar (c : Char) : Bool := c.isAlphanum || c == '_'

/-- Class \s of Python re. -/
def isSpaceChar (c : Char) : Bool :=
  c == ' ' || c == '\t' || c == '\n' || c == '\r' || c == Char.ofNat 11 || c == Char.ofNat 12

/-- Class \S of Python re. -/
def notSpaceChar (c : Char) : Bool := !isSpaceChar c

/-- Class excluding a closing square bracket. -/
def notRBracket (c : Char) : Bool := c != ']'

/-- Class excluding a closing parenthesis. -/
def notRParen (c : Char) : Bool := c != ')'

/-- Dot under re.DOTALL: any character. -/
def anyChar (_ : Char) : Bool := true

def backquoteChar : Char := Char.ofNat 96

def squoteChar : Char := Char.ofNat 39

/-- Bracket expression holding a backquote and a straight quote, written
in the source table regexes of tables.py, networks.py and npi_report.py. -/
def quoteClass (c : Char) : Bool := c == backquoteChar || c == squoteChar

/-- Syntax of the regex fragment used by the scripts: literals,
single-character classes, sequencing, ordered alternation, greedy or lazy
star over a class, greedy or lazy option, numbered capturing groups and
the word-boundary assertion. -/
inductive RE where
  | eps : RE
  | cls (p : Char → Bool) : RE
  | lit (l : List Char) : RE
  | seq (a b : RE) : RE
  | alt (a b : RE) : RE
  | starCls (p : Char → Bool) (greedy : Bool) : RE
  | opt (a : RE) (greedy : Bool) : RE
  | group (n : Nat) (a : RE) : RE
  | wordB : RE

/-- Case-insensitive literal test: the pattern characters are lowercased
on the fly, the subject is assumed lowercased already. -/
def isPrefixLow : List Char → List Char → Bool
  | [], _ => true
  | _ :: _, [] => false
  | a :: as, b :: bs => (a.toLower == b) && isPrefixLow as bs

def countLeading (p : Char → Bool) : List Char → Nat
  | [] => 0
  | c :: cs => if p c then countLeading p cs + 1 else 0

/-- Captures: group number with start and stop offsets. -/
abbrev Caps := List (Nat × Nat × Nat)

def isWordAt (s : List Char) (i : Nat) : Bool :=
  match (s.drop i).head? with
  | some c => isWordChar c
  | none => false

/-- Word boundary of Python re: the two sides of the position disagree on
wordness, positions outside the subject counting as non-word. -/
def atWordBoundary (s : List Char) (i : Nat) : Bool :=
  match i with
  | 0 => isWordAt s 0
  | k + 1 => isWordAt s k != isWordAt s (k + 1)

/-- All ways a pattern can match at position i of the (lowercased) subject,
as pairs of end position and captures, in backtracking preference order:
the head of the list is the match a backtracking engine commits to. -/
def reMs (s : List Char) : RE → Nat → List (Nat × Caps)
  | .eps, i => [(i, [])]
  | .cls p, i =>
      match (s.drop i).head? with
      | some c => if p c then [(i + 1, [])] else []
      | none => []
  | .lit l, i => if isPrefixLow l (s.drop i) then [(i + l.length, [])] else []
  | .seq a b, i =>
      (reMs s a i).flatMap (fun x => (reMs s b x.1).map (fun y => (y.1, x.2 ++ y.2)))
  | .alt a b, i => reMs s a i ++ reMs s b i
  | .starCls p g, i =>
      let n := countLeading p (s.drop i)
      let ends := (List.range (n + 1)).map (fun k => i + k)
      (if g then ends.reverse else ends).map (fun j => (j, ([] : Caps)))
  | .opt a g, i =>
      if g then reMs s a i ++ [(i, [])] else (i, ([] : Caps)) :: reMs s a i
  | .group n a, i => (reMs s a i).map (fun x => (x.1, (n, i, x.1) :: x.2))
  | .wordB, i => if atWordBoundary s i then [(i, [])] else []

structure MatchInfo where
  mstart : Nat
  mend : Nat
  caps : Caps
deriving DecidableEq, Repr

/-- Leftmost search: try positions in increasing order and commit to the
first position where the pattern matches, taking the preferred match
there.  This is the semantics of re.search. -/
def searchAux (r : RE) (s : List Char) : Nat → Nat → Option MatchInfo
  | _, 0 => none
  | i, fuel + 1 =>
      match reMs s r i with
      | [] => searchAux r s (i + 1) fuel
      | (j, c) :: _ => some ⟨i, j, c⟩

def reSearch (r : RE) (s : List Char) : Option MatchInfo :=
  searchAux r (lowerL s) 0 (s.length + 1)

/-- Semantics of re.finditer: repeated non-overlapping leftmost search,
resuming at the end of the previous match (one past it for an empty
match). -/
def findIterAux (r : RE) (ls : List Char) : Nat → Nat → List MatchInfo
  | _, 0 => []
  | i, fuel + 1 =>
      match searchAux r ls i (ls.length + 1 - i) with
      | none => []
      | some m => m :: findIterAux r ls (if m.mstart < m.mend then m.mend else m.mend + 1) fuel

def findIter (r : RE) (s : List Char) : List MatchInfo :=
  findIterAux r (lowerL s) 0 (s.length + 1)

/-- Text of a numbered group, from the original (not lowercased) subject,
as Python group(n). -/
def capStr (s : List Char) (caps : Caps) (n : Nat) : Option String :=
  match caps.find? (fun t => t.1 == n) with
  | some t => some (String.mk ((s.drop t.2.1).take (t.2.2 - t.2.1)))
  | none => none

/-- Text of the whole match, as Python group(0). -/
def wholeMatch (s : List Char) (m : MatchInfo) : String :=
  String.mk ((s.drop m.mstart).take (m.mend - m.mstart))

def reSeq (l : List RE) : RE := l.foldr RE.seq RE.eps

def litS (x : String) : RE := RE.lit x.data

/-- One-or-more repetition of a class, X+ as X X*. -/
def plusCls (p : Char → Bool) : RE := RE.seq (RE.cls p) (RE.starCls p true)

/- The regex literals of the source, one definition per occurrence kind. -/

/-- Embeds USE\s+\[(\w+)\] — the database-name regex shared by all five
scripts (schema-analyzer.py line 32, columns.py line 30, tables.py lines
30 and 122, networks.py line 30, npi_report.py line 29). -/
def useRE : RE :=
  reSeq [litS "USE", plusCls isSpaceChar, litS "[", .group 1 (plusCls isWordChar), litS "]"]

/-- Embeds the verbose table regex of schema-analyzer.py (lines 36-45 and
86-95): (CREATE\s+(?:TABLE|VIEW))\s+\[([^U]+)\]\.\[([^U]+)\]\s*\(?(.*?)\)?
(?:ON\s+\[PRIMARY\][^V]*)?\s*GO\b where U stands for a closing bracket
and V for a closing parenthesis.  Group 4 is a lazy dot-star under
re.DOTALL. -/
def saTableRE : RE :=
  reSeq [
    .group 1 (reSeq [litS "CREATE", plusCls isSpaceChar, .alt (litS "TABLE") (litS "VIEW")]),
    plusCls isSpaceChar, litS "[", .group 2 (plusCls notRBracket), litS "].[",
    .group 3 (plusCls notRBracket), litS "]",
    .starCls isSpaceChar true, .opt (litS "(") true,
    .group 4 (.starCls anyChar false),
    .opt (litS ")") true,
    .opt (reSeq [litS "ON", plusCls isSpaceChar, litS "[PRIMARY]", .starCls notRParen true]) true,
    .starCls isSpaceChar true, litS "GO", .wordB ]

/-- Embeds the greedy table regex CREATE\s+\S+\s+[Q]?(\S+)[Q]?\s*\((.*)\)
\s*.*GO of tables.py (lines 36 and 126-127) and networks.py (line 36),
where Q stands for the quote bracket expression.  Both the column group
and the trailing dot-star are greedy under re.DOTALL. -/
def tpTableRE : RE :=
  reSeq [
    litS "CREATE", plusCls isSpaceChar, plusCls notSpaceChar, plusCls isSpaceChar,
    .opt (.cls quoteClass) true, .group 1 (plusCls notSpaceChar), .opt (.cls quoteClass) true,
    .starCls isSpaceChar true, litS "(", .group 2 (.starCls anyChar true), litS ")",
    .starCls isSpaceChar true, .starCls anyChar true, litS "GO" ]

/-- Keyword alternation of the dentists mode:
(?:NPI|dentist|hygienist|provider). -/
def dentistsAlt : RE :=
  .alt (litS "NPI") (.alt (litS "dentist") (.alt (litS "hygienist") (litS "provider")))

/-- Keyword alternation of the networks mode: (?:dental network provider|
network provider|dental network|provider|network). -/
def networksAlt : RE :=
  .alt (litS "dental network provider") (.alt (litS "network provider")
    (.alt (litS "dental network") (.alt (litS "provider") (litS "network"))))

/-- Keyword alternation of the dsos mode: (?:dental service organization|
dental support organization|service org|support organization|support org|
dso|service|support). -/
def dsosAlt : RE :=
  .alt (litS "dental service organization") (.alt (litS "dental support organization")
    (.alt (litS "service org") (.alt (litS "support organization")
      (.alt (litS "support org") (.alt (litS "dso") (.alt (litS "service") (litS "support")))))))

/-- Column patterns of schema-analyzer.py lines 54-58: the keyword
alternation wrapped as \[\s*([^U]*KW[^U]*)\s*\]\s*\[ with U a closing
bracket, so only bracketed identifiers followed by another opening
bracket are reported, and group 1 is the whole identifier. -/
def colPat (kw : RE) : RE :=
  reSeq [litS "[", .starCls isSpaceChar true,
    .group 1 (reSeq [.starCls notRBracket true, kw, .starCls notRBracket true]),
    .starCls isSpaceChar true, litS "]", .starCls isSpaceChar true, litS "["]

/-- Word-bounded keyword patterns \b(?:...)\b of tables.py lines 133-137
and networks.py line 42. -/
def bounded (kw : RE) : RE := reSeq [.wordB, kw, .wordB]

/-- Mode dispatch of scan_columns_sql_file, schema-analyzer.py lines
52-59: pattern starts as None and stays None on an unknown mode. -/
def modePatternSAColumns (mode : String) : Option RE :=
  if mode == "dentists" then some (colPat dentistsAlt)
  else if mode == "networks" then some (colPat networksAlt)
  else if mode == "dsos" then some (colPat dsosAlt)
  else none

/-- Mode dispatch of scan_tables_sql_file, schema-analyzer.py lines
98-105: bare alternations searched in the table name. -/
def modePatternSATables (mode : String) : Option RE :=
  if mode == "dentists" then some dentistsAlt
  else if mode == "networks" then some networksAlt
  else if mode == "dsos" then some dsosAlt
  else none

/-- Mode dispatch of the mode-based script in tables.py, lines 131-137:
word-bounded alternations searched in the table name. -/
def modePatternTP (mode : String) : Option RE :=
  if mode == "dentists" then some (bounded dentistsAlt)
  else if mode == "networks" then some (bounded networksAlt)
  else if mode == "dsos" then some (bounded dsosAlt)
  else none

/-- Match record produced by the scanners: database, table, matched term
and file path (dictionary keys database/table/match/file in the source;
the match key is called matched here because match is reserved). -/
structure MatchRecord where
  database : String
  table : String
  matched : String
  file : String
deriving DecidableEq, Repr

/-- Python exceptions that escape a modelled function: SystemExit (from
exit() and from argparse parser.error) and NameError. -/
inductive PyExc where
  | systemExit : PyExc
  | nameError : PyExc
deriving DecidableEq, Repr

/-- Input path as the scripts classify it: a direct file (with the result
of reading it, none on a failed read), a directory flattened to the files
os.walk yields under it in walk order, or an invalid path. -/
inductive FSPath where
  | file (name : String) (content : Option String) : FSPath
  | dir (entries : List (String × Option String)) : FSPath
  | invalid (name : String) : FSPath
deriving DecidableEq, Repr

def sqlSuffix : List Char := ['.', 's', 'q', 'l']

/-- Embeds file.lower().endswith(".sql") on the file name. -/
def endsWithSqlCI (name : String) : Bool :=
  let l := lowerL name.data
  l.drop (l.length - 4) == sqlSuffix

/-- Files a path contributes to scanning, in order: a direct file path is
scanned unconditionally, files walked under a directory are filtered to
the .sql extension, an invalid path only logs an error (schema-analyzer.py
lines 118-139, columns.py lines 59-74). -/
def scanList (paths : List FSPath) : List (String × Option String) :=
  paths.flatMap (fun p =>
    match p with
    | .file n c => [(n, c)]
    | .dir es => es.filter (fun e => endsWithSqlCI e.1)
    | .invalid _ => [])

/-- Files the directory-only walkers scan (tables.py scan_directories,
npi_report.py scan_directories): every file under the given directories in
walk order, filtered to the .sql extension. -/
def walkSql (dirs : List (List (String × Option String))) : List (String × Option String) :=
  (dirs.flatMap id).filter (fun e => endsWithSqlCI e.1)

/-- Embeds the shared database-name extraction: group 1 of the first
USE\s+\[(\w+)\] match, defaulting to Unknown when there is none. -/
def getDatabase (content : String) : String :=
  match reSearch useRE content.data with
  | some m => (capStr content.data m.caps 1).getD "Unknown"
  | none => "Unknown"

/-- Table name of a schema-analyzer table match: group 3 of saTableRE. -/
def saTableName (content : String) (tm : MatchInfo) : String :=
  (capStr content.data tm.caps 3).getD ""

/-- Column-definition text of a schema-analyzer table match: group 4 of
saTableRE. -/
def saColumnsSection (content : String) (tm : MatchInfo) : String :=
  (capStr content.data tm.caps 4).getD ""

/-- Table name of a tables.py table match: group 1 of tpTableRE. -/
def tpTableName (content : String) (tm : MatchInfo) : String :=
  (capStr content.data tm.caps 1).getD ""

/-- Mode logic shared verbatim by the argument parsing of
schema-analyzer.py (lines 163-169), columns.py (lines 96-102) and the
mode-based script of tables.py (lines 179-185): the modes list collects
the flags that are set, in the fixed order dentists, networks, dsos. -/
def buildModes (dentists networks dsos : Bool) : List String :=
  (if dentists then ["dentists"] else []) ++
  (if networks then ["networks"] else []) ++
  (if dsos then ["dsos"] else [])

namespace SchemaAnalyzer

/-- Records one saTableRE match contributes in scan_columns_sql_file
(schema-analyzer.py lines 52-69): the mode pattern is iterated over the
column section, group 1 of each hit is the reported match and the
database field is the extracted database name. -/
def saColumnsPerTable (content filepath mode : String) (tm : MatchInfo) : List MatchRecord :=
  match modePatternSAColumns mode with
  | none => []
  | some pat =>
      (findIter pat (saColumnsSection content tm).data).map (fun mf =>
        ⟨getDatabase content, saTableName content tm,
         (capStr (saColumnsSection content tm).data mf.caps 1).getD "", filepath⟩)

/-- Embeds scan_columns_sql_file of schema-analyzer.py (lines 22-70).  A
failed read is caught, a message printed and the empty result list
returned; otherwise every saTableRE match contributes its per-table
records. -/
def scan_columns_sql_file (filepath : String) (readResult : Option String) (mode : String) :
    List MatchRecord :=
  match readResult with
  | none => []
  | some content =>
      (findIter saTableRE content.data).flatMap (saColumnsPerTable content filepath mode)

/-- Records one saTableRE match contributes in scan_tables_sql_file
(schema-analyzer.py lines 96-116): the bare mode alternation is iterated
over the table name and group 0 of each hit is the reported match. -/
def saTablesPerTable (content filepath mode : String) (tm : MatchInfo) : List MatchRecord :=
  match modePatternSATables mode with
  | none => []
  | some pat =>
      (findIter pat (saTableName content tm).data).map (fun mf =>
        ⟨getDatabase content, saTableName content tm,
         wholeMatch (saTableName content tm).data mf, filepath⟩)

/-- Embeds scan_tables_sql_file of schema-analyzer.py (lines 72-116). -/
def scan_tables_sql_file (filepath : String) (readResult : Option String) (mode : String) :
    List MatchRecord :=
  match readResult with
  | none => []
  | some content =>
      (findIter saTableRE content.data).flatMap (saTablesPerTable content filepath mode)

/-- Embeds scan_directories of schema-analyzer.py (lines 118-139): every
file the paths contribute is scanned in order with the per-file scanner
selected by the no_columns flag, and the result lists are concatenated. -/
def scan_directories (paths : List FSPath) (mode : String) (no_columns : Bool) :
    List MatchRecord :=
  (scanList paths).flatMap (fun e =>
    if no_columns then scan_tables_sql_file e.1 e.2 mode
    else scan_columns_sql_file e.1 e.2 mode)

/-- Rows the CSV reporter writes (print_report, schema-analyzer.py lines
141-146): a fixed header row, then one row per result holding the
database, table, match and file fields in that order. -/
def print_report_rows (results : List MatchRecord) : List (List String) :=
  ["Database", "Table", "Matched", "File"] ::
    results.map (fun r => [r.database, r.table, r.matched, r.file])

/-- Value the JSON reporter dumps (print_json_report, schema-analyzer.py
lines 148-151): the result dictionaries in order, each with the keys
database, table, match, file. -/
def print_json_report_value (results : List MatchRecord) : List (List (String × String)) :=
  results.map (fun r =>
    [("database", r.database), ("table", r.table), ("match", r.matched), ("file", r.file)])

/-- Embeds the argument handling and per-mode loop of schema-analyzer.py
lines 153-184: with no mode flag set, parser.error raises SystemExit
before scan_directories is ever applied; otherwise one report per
selected mode is produced.  The json flag only selects the serialization
and does not change the records. -/
def main (dentists networks dsos json no_columns : Bool) (paths : List FSPath) :
    Except PyExc (List (String × List MatchRecord)) :=
  let modes := buildModes dentists networks dsos
  if modes.isEmpty then .error .systemExit
  else .ok (modes.map (fun m => (m, scan_directories paths m no_columns)))

end SchemaAnalyzer

namespace ColumnsPy

/-- Embeds scan_sql_file of columns.py (lines 20-57).  A failed read is
caught by the try/except of lines 22-28 and the empty result list is
returned.  On a successful read, line 34 evaluates regex.IGNORECASE where
only the re module is imported, so a NameError is raised before any
result can be appended, and it is not caught by any handler in the
script. -/
def scan_sql_file (filepath : String) (readResult : Option String) (mode : String) :
    Except PyExc (List MatchRecord) :=
  match readResult with
  | none => .ok []
  | some _ => .error .nameError

/-- Scanning loop of scan_directories in columns.py (lines 59-74) over
the flattened file list: each file result extends the accumulator, and an
exception escaping scan_sql_file propagates and aborts the loop. -/
def scanFilesAux (mode : String) :
    List (String × Option String) → List MatchRecord → Except PyExc (List MatchRecord)
  | [], acc => .ok acc
  | e :: rest, acc =>
      match scan_sql_file e.1 e.2 mode with
      | .error x => .error x
      | .ok rs => scanFilesAux mode rest (acc ++ rs)

/-- Embeds scan_directories of columns.py (lines 59-74). -/
def scan_directories (paths : List FSPath) (mode : String) : Except PyExc (List MatchRecord) :=
  scanFilesAux mode (scanList paths) []

/-- Embeds the argument handling and per-mode loop of columns.py lines
88-115: with no mode flag set, parser.error raises SystemExit before any
scanning. -/
def main (dentists networks dsos json : Bool) (paths : List FSPath) :
    Except PyExc (List (String × List MatchRecord)) :=
  let modes := buildModes dentists networks dsos
  if modes.isEmpty then .error .systemExit
  else modes.foldlM (fun acc m => do
    let rs ← scan_directories paths m
    pure (acc ++ [(m, rs)])) []

end ColumnsPy

namespace TablesPy2

/-- Record one tpTableRE match contributes in the mode-based
scan_sql_file of tables.py (lines 128-147): the word-bounded alternation
is searched once in the table name and group 0 of the first hit is the
reported match; at most one record per table block. -/
def tpPerTable (content filepath mode : String) (tm : MatchInfo) : List MatchRecord :=
  match modePatternTP mode with
  | none => []
  | some pat =>
      match reSearch pat (tpTableName content tm).data with
      | some mf =>
          [⟨getDatabase content, tpTableName content tm,
            wholeMatch (tpTableName content tm).data mf, filepath⟩]
      | none => []

/-- Embeds the mode-based scan_sql_file of tables.py (lines 112-147). -/
def scan_sql_file (filepath : String) (readResult : Option String) (mode : String) :
    List MatchRecord :=
  match readResult with
  | none => []
  | some content =>
      (findIter tpTableRE content.data).flatMap (tpPerTable content filepath mode)

/-- Embeds scan_directories of tables.py (lines 149-158). -/
def scan_directories (dirs : List (List (String × Option String))) (mode : String) :
    List MatchRecord :=
  (walkSql dirs).flatMap (fun e => scan_sql_file e.1 e.2 mode)

/-- Embeds the argument handling and per-mode loop of tables.py lines
172-195: with no mode flag set, parser.error raises SystemExit before any
scanning. -/
def main (dentists networks dsos json : Bool) (dirs : List (List (String × Option String))) :
    Except PyExc (List (String × List MatchRecord)) :=
  let modes := buildModes dentists networks dsos
  if modes.isEmpty then .error .systemExit
  else .ok (modes.map (fun m => (m, scan_directories dirs m)))

end TablesPy2

namespace NpiReport

structure NpiRecord where
  database : String
  table : String
  column : String
  file : String
deriving DecidableEq, Repr

/-- Embeds scan_sql_file of npi_report.py (lines 15-58).  A failed read
is caught and the empty result list returned (lines 17-23).  On a
successful read, the unconditional exit() on line 57 runs after the
column loop and before the return statement, raising SystemExit whatever
the content is, so the collected results are discarded and the return on
line 58 is unreachable. -/
def scan_sql_file (readResult : Option String) : Except PyExc (List NpiRecord) :=
  match readResult with
  | none => .ok []
  | some _ => .error .systemExit

/-- Scanning loop of scan_directories in npi_report.py (lines 60-69) over
the flattened walked file list: SystemExit from scan_sql_file propagates
and aborts the loop. -/
def scanFilesAux :
    List (String × Option String) → List NpiRecord → Except PyExc (List NpiRecord)
  | [], acc => .ok acc
  | e :: rest, acc =>
      match scan_sql_file e.2 with
      | .error x => .error x
      | .ok rs => scanFilesAux rest (acc ++ rs)

/-- Embeds scan_directories of npi_report.py (lines 60-69). -/
def scan_directories (dirs : List (List (String × Option String))) :
    Except PyExc (List NpiRecord) :=
  scanFilesAux (walkSql dirs) []

/-- Lines print_report of npi_report.py (lines 71-77) writes. -/
def print_report_lines (results : List NpiRecord) : List String :=
  if results.isEmpty then ["No columns with NPI found in the provided SQL files."]
  else "Found the following NPI columns:" ::
    results.map (fun r =>
      "Database: " ++ r.database ++ ", Table: " ++ r.table ++
      ", Column: " ++ r.column ++ " (File: " ++ r.file ++ ")")

/-- Embeds the main block of npi_report.py (lines 79-82): scan, then
print the report; SystemExit escaping the scan aborts before any report
line is produced. -/
def main (dirs : List (List (String × Option String))) : Except PyExc (List String) := do
  let rs ← scan_directories dirs
  pure (print_report_lines rs)

end NpiReport

/- Concrete inputs used by the claim theorems. -/

/-- The exact file content named by the spec: USE [FooDB] followed by an
unbracketed-column CREATE TABLE block ending in ON [PRIMARY] GO. -/
def c1content : String :=
  "USE [FooDB]\nCREATE TABLE [dbo].[Providers] (ProviderNPI int, Name varchar(50)) ON [PRIMARY] GO"

/-- The same table written the way SQL Server scripts its DDL, with
bracketed column identifiers, which the schema-analyzer column pattern
requires. -/
def c1bracketed : String :=
  "USE [FooDB]\nCREATE TABLE [dbo].[Providers]([ProviderNPI] [int] NULL, [Name] [varchar](50) NULL) ON [PRIMARY]\nGO"

/-- Two consecutive CREATE TABLE blocks, each terminated by GO. -/
def twoBlocks : String :=
  "CREATE TABLE [dbo].[A]([x] [int]) GO\nCREATE TABLE [dbo].[B]([y] [int]) GO"

/- Helper lemmas. -/

theorem flatMap_eq_nil_of {α β : Type} (l : List α) (f : α → List β)
    (h : ∀ a ∈ l, f a = []) : l.flatMap f = [] := by
  induction l with
  | nil => rfl
  | cons a t ih =>
      rw [List.flatMap_cons, h a (List.mem_cons_self a t),
        ih (fun x hx => h x (List.mem_cons_of_mem a hx))]
      rfl

theorem reMs_alt (s : List Char) (a b : RE) (i : Nat) :
    reMs s (RE.alt a b) i = reMs s a i ++ reMs s b i := rfl

theorem reMs_lit (s l : List Char) (i : Nat) :
    reMs s (RE.lit l) i =
      if isPrefixLow l (s.drop i) then [(i + l.length, ([] : Caps))] else [] := rfl

theorem isPrefixLow_length : ∀ (l xs : List Char), isPrefixLow l xs = true →
    l.length ≤ xs.length
  | [], _, _ => Nat.zero_le _
  | a :: as, [], h => by simp [isPrefixLow] at h
  | a :: as, b :: bs, h => by
      simp only [isPrefixLow, Bool.and_eq_true] at h
      simpa using Nat.succ_le_succ (isPrefixLow_length as bs h.2)

theorem isPrefixLow_take : ∀ (l xs : List Char), isPrefixLow l xs = true →
    xs.take l.length = l.map Char.toLower
  | [], _, _ => by simp
  | a :: as, [], h => by simp [isPrefixLow] at h
  | a :: as, b :: bs, h => by
      simp only [isPrefixLow, Bool.and_eq_true, beq_iff_eq] at h
      simp [List.take, isPrefixLow_take as bs h.2, h.1]

theorem searchAux_first (r : RE) (s : List Char) (i j : Nat) (c : Caps)
    (rest : List (Nat × Caps)) :
    ∀ (fuel i0 : Nat), i0 ≤ i → i < i0 + fuel →
      (∀ k, i0 ≤ k → k < i → reMs s r k = []) →
      reMs s r i = (j, c) :: rest →
      searchAux r s i0 fuel = some ⟨i, j, c⟩ := by
  intro fuel
  induction fuel with
  | zero => intro i0 h1 h2 _ _; omega
  | succ n ih =>
      intro i0 h1 h2 hk hm
      rcases Nat.eq_or_lt_of_le h1 with he | hlt
      · subst he
        simp [searchAux, hm]
      · have hz : reMs s r i0 = [] := hk i0 (Nat.le_refl i0) hlt
        simp only [searchAux, hz]
        exact ih (i0 + 1) hlt (by omega) (fun k hk1 hk2 => hk k (by omega) hk2) hm

theorem columnsScanAbort (mode : String) :
    ∀ (files : List (String × Option String)) (acc : List MatchRecord),
      (∃ e ∈ files, e.2.isSome = true) →
      ColumnsPy.scanFilesAux mode files acc = .error .nameError := by
  intro files
  induction files with
  | nil => intro acc h; obtain ⟨e, he, -⟩ := h; simp at he
  | cons a t ih =>
      intro acc h
      cases ha : a.2 with
      | some c => simp [ColumnsPy.scanFilesAux, ColumnsPy.scan_sql_file, ha]
      | none =>
          simp only [ColumnsPy.scanFilesAux, ColumnsPy.scan_sql_file, ha, List.append_nil]
          apply ih
          obtain ⟨e, he, hs⟩ := h
          rcases List.mem_cons.mp he with rfl | het
          · rw [ha] at hs; simp at hs
          · exact ⟨e, het, hs⟩

/- Claim theorems. -/

set_option maxRecDepth 200000 in
/-- C1, counterexample: on the exact content the claim names — USE [FooDB]
followed by CREATE TABLE [dbo].[Providers] (ProviderNPI int, Name
varchar(50)) ON [PRIMARY] GO — dentist-mode column scanning does NOT
return one match record.  The schema-analyzer scanner returns no record,
because its dentist column pattern only matches a bracketed identifier
followed by a second opening bracket and this content has unbracketed
column definitions; the columns.py scanner raises NameError instead of
returning. -/
theorem c1_counterexample :
    SchemaAnalyzer.scan_columns_sql_file "f.sql" (some c1content) "dentists" = [] ∧
    ColumnsPy.scan_sql_file "f.sql" (some c1content) "dentists" = .error .nameError :=
  ⟨by decide, rfl⟩

set_option maxRecDepth 200000 in
/-- C1, amended: for the bracket-style rendering of the same table,
schema-analyzer dentist-mode column scanning returns exactly one record
with database FooDB and table Providers, whose matched term is the full
column identifier ProviderNPI (which contains the keyword NPI), not the
bare keyword. -/
theorem c1_amended_scan :
    SchemaAnalyzer.scan_columns_sql_file "f.sql" (some c1bracketed) "dentists" =
      [⟨"FooDB", "Providers", "ProviderNPI", "f.sql"⟩] := by decide

/-- C2: a failed file read yields the empty result list in both per-file
scanners of schema-analyzer.py and in the read-failure branch of
columns.py, and scan_directories of schema-analyzer.py scans all files
around the unreadable one unchanged — both when the unreadable file is a
direct path argument and when it is the first entry walked inside a
directory — so one unreadable file never aborts the scan of its
siblings. -/
theorem c2_unreadable_file_skipped (pre post : List FSPath)
    (es : List (String × Option String)) (name bname mode : String) (nc : Bool) :
    SchemaAnalyzer.scan_columns_sql_file name none mode = [] ∧
    SchemaAnalyzer.scan_tables_sql_file name none mode = [] ∧
    ColumnsPy.scan_sql_file name none mode = .ok [] ∧
    SchemaAnalyzer.scan_directories (pre ++ FSPath.file name none :: post) mode nc =
      SchemaAnalyzer.scan_directories pre mode nc ++
        SchemaAnalyzer.scan_directories post mode nc ∧
    SchemaAnalyzer.scan_directories [FSPath.dir ((bname, none) :: es)] mode nc =
      SchemaAnalyzer.scan_directories [FSPath.dir es] mode nc := by
  refine ⟨rfl, rfl, rfl, ?_, ?_⟩
  · cases nc <;>
      simp [SchemaAnalyzer.scan_directories, scanList, List.flatMap_append,
        List.flatMap_cons, SchemaAnalyzer.scan_columns_sql_file,
        SchemaAnalyzer.scan_tables_sql_file]
  · by_cases hb : endsWithSqlCI bname <;> cases nc <;>
      simp [SchemaAnalyzer.scan_directories, scanList, List.filter_cons, hb,
        SchemaAnalyzer.scan_columns_sql_file, SchemaAnalyzer.scan_tables_sql_file]

set_option maxRecDepth 200000 in
/-- C3, counterexample: on two consecutive CREATE TABLE ... GO blocks the
greedy extractor regex of tables.py yields a single match spanning both
blocks — from offset 0 to offset 73, the end of the second GO, past the
first GO at offsets 34-36 — not two separate matches terminating at the
first GO as the claim states for every script. -/
theorem c3_counterexample :
    (findIter tpTableRE twoBlocks.data).length = 1 ∧
    (findIter tpTableRE twoBlocks.data).map (fun m => (m.mstart, m.mend)) = [(0, 73)] ∧
    twoBlocks.data.length = 73 := by decide

set_option maxRecDepth 200000 in
/-- C3, amended: only the lazy extractor of schema-analyzer.py terminates
each span at the first following GO and yields one match per block (two
matches, ending at offsets 36 and 73, with table names A and B); the
greedy extractor of tables.py, networks.py and npi_report.py instead
extends to the last GO and merges the two consecutive blocks into a
single match. -/
theorem c3_amended_extractors :
    (findIter saTableRE twoBlocks.data).map (fun m => (m.mstart, m.mend)) =
      [(0, 36), (37, 73)] ∧
    (findIter saTableRE twoBlocks.data).map (saTableName twoBlocks) = ["A", "B"] ∧
    (findIter tpTableRE twoBlocks.data).map (fun m => (m.mstart, m.mend)) = [(0, 73)] := by
  decide

/-- C4: keyword matching is case-insensitive alternation matching, and the
multi-word phrases precede their single-word substrings in every mode
alternation.  Consequently, when the earliest keyword occurrence in the
searched text is the phrase network provider (and not the longer phrase
dental network provider), the networks alternation search returns the
full phrase network provider rather than network or provider, and an
earliest occurrence of dental service organization is returned in
preference to service by the dsos alternation.  The alternation match is
what the scripts report as group 0 (scan_tables_sql_file of
schema-analyzer.py, the mode scripts of tables.py and networks.py); in
the column mode of schema-analyzer.py the same alternations decide the
match inside colPat while the record carries the whole bracketed
identifier. -/
theorem c4_phrase_preference (t1 t2 : String) (i1 i2 : Nat)
    (h1 : ∀ k, k < i1 → reMs (lowerL t1.data) networksAlt k = [])
    (h2 : isPrefixLow "network provider".data ((lowerL t1.data).drop i1) = true)
    (h3 : isPrefixLow "dental network provider".data ((lowerL t1.data).drop i1) = false)
    (h4 : ∀ k, k < i2 → reMs (lowerL t2.data) dsosAlt k = [])
    (h5 : isPrefixLow "dental service organization".data ((lowerL t2.data).drop i2) = true) :
    (∃ m, reSearch networksAlt t1.data = some m ∧
        (wholeMatch t1.data m).data.map Char.toLower = "network provider".data) ∧
    (∃ m, reSearch dsosAlt t2.data = some m ∧
        (wholeMatch t2.data m).data.map Char.toLower = "dental service organization".data) := by
  constructor
  · have hlen : (lowerL t1.data).length = t1.data.length := List.length_map _ _
    have hple := isPrefixLow_length _ _ h2
    rw [List.length_drop, hlen] at hple
    have hnp0 : 0 < ("network provider".data).length := by decide
    have hcons : reMs (lowerL t1.data) networksAlt i1 =
        (i1 + ("network provider".data).length, ([] : Caps)) ::
          reMs (lowerL t1.data)
            (RE.alt (litS "dental network") (RE.alt (litS "provider") (litS "network"))) i1 := by
      show reMs (lowerL t1.data)
          (RE.alt (litS "dental network provider")
            (RE.alt (litS "network provider")
              (RE.alt (litS "dental network")
                (RE.alt (litS "provider") (litS "network"))))) i1 = _
      rw [reMs_alt, reMs_alt,
        show litS "dental network provider" = RE.lit "dental network provider".data from rfl,
        show litS "network provider" = RE.lit "network provider".data from rfl,
        reMs_lit, reMs_lit, h3, h2]
      simp
    refine ⟨⟨i1, i1 + ("network provider".data).length, []⟩, ?_, ?_⟩
    · exact searchAux_first networksAlt (lowerL t1.data) i1 _ [] _ (t1.data.length + 1) 0
        (Nat.zero_le _) (by omega) (fun k _ hk => h1 k hk) hcons
    · show ((t1.data.drop i1).take (i1 + ("network provider".data).length - i1)).map
          Char.toLower = "network provider".data
      rw [show i1 + ("network provider".data).length - i1 =
          ("network provider".data).length from by omega]
      rw [List.map_take, List.map_drop,
        show t1.data.map Char.toLower = lowerL t1.data from rfl,
        isPrefixLow_take _ _ h2]
      decide
  · have hlen : (lowerL t2.data).length = t2.data.length := List.length_map _ _
    have hple := isPrefixLow_length _ _ h5
    rw [List.length_drop, hlen] at hple
    have hd0 : 0 < ("dental service organization".data).length := by decide
    have hcons : reMs (lowerL t2.data) dsosAlt i2 =
        (i2 + ("dental service organization".data).length, ([] : Caps)) ::
          reMs (lowerL t2.data)
            (RE.alt (litS "dental support organization") (RE.alt (litS "service org")
              (RE.alt (litS "support organization") (RE.alt (litS "support org")
                (RE.alt (litS "dso") (RE.alt (litS "service") (litS "support"))))))) i2 := by
      show reMs (lowerL t2.data) (RE.alt (litS "dental service organization")
          (RE.alt (litS "dental support organization") (RE.alt (litS "service org")
            (RE.alt (litS "support organization") (RE.alt (litS "support org")
              (RE.alt (litS "dso") (RE.alt (litS "service") (litS "support")))))))) i2 = _
      rw [reMs_alt,
        show litS "dental service organization" =
          RE.lit "dental service organization".data from rfl,
        reMs_lit, h5]
      simp
    refine ⟨⟨i2, i2 + ("dental service organization".data).length, []⟩, ?_, ?_⟩
    · exact searchAux_first dsosAlt (lowerL t2.data) i2 _ [] _ (t2.data.length + 1) 0
        (Nat.zero_le _) (by omega) (fun k _ hk => h4 k hk) hcons
    · show ((t2.data.drop i2).take
          (i2 + ("dental service organization".data).length - i2)).map
          Char.toLower = "dental service organization".data
      rw [show i2 + ("dental service organization".data).length - i2 =
          ("dental service organization".data).length from by omega]
      rw [List.map_take, List.map_drop,
        show t2.data.map Char.toLower = lowerL t2.data from rfl,
        isPrefixLow_take _ _ h5]
      decide

/-- C4 witness: in the text my Network Provider id the earliest keyword
occurrence of the networks alternation is at offset 3 and is the phrase,
and the search reports network provider; likewise for a Dental Service
Organization x and the dsos alternation at offset 2. -/
theorem c4_phrase_preference_witness :
    (∃ m, reSearch networksAlt "my Network Provider id".data = some m ∧
        (wholeMatch "my Network Provider id".data m).data.map Char.toLower =
          "network provider".data) ∧
    (∃ m, reSearch dsosAlt "a Dental Service Organization x".data = some m ∧
        (wholeMatch "a Dental Service Organization x".data m).data.map Char.toLower =
          "dental service organization".data) :=
  c4_phrase_preference "my Network Provider id" "a Dental Service Organization x" 3 2
    (by intro k hk; interval_cases k <;> decide) (by decide) (by decide)
    (by intro k hk; interval_cases k <;> decide) (by decide)

/-- C5: table-name-only scanning produces a record only from a keyword hit
inside the extracted table identifier.  When the mode pattern has no
occurrence in any extracted table name — even if keywords occur inside
the column lists — scan_tables_sql_file of schema-analyzer.py and the
mode-based scan_sql_file of tables.py return no record at all. -/
theorem c5_table_name_only (content filepath mode : String) (patSA patTP : RE)
    (hpatSA : modePatternSATables mode = some patSA)
    (hSA : ∀ tm ∈ findIter saTableRE content.data,
        findIter patSA (saTableName content tm).data = [])
    (hpatTP : modePatternTP mode = some patTP)
    (hTP : ∀ tm ∈ findIter tpTableRE content.data,
        reSearch patTP (tpTableName content tm).data = none) :
    SchemaAnalyzer.scan_tables_sql_file filepath (some content) mode = [] ∧
    TablesPy2.scan_sql_file filepath (some content) mode = [] := by
  constructor
  · show (findIter saTableRE content.data).flatMap
        (SchemaAnalyzer.saTablesPerTable content filepath mode) = []
    apply flatMap_eq_nil_of
    intro tm htm
    simp [SchemaAnalyzer.saTablesPerTable, hpatSA, hSA tm htm]
  · show (findIter tpTableRE content.data).flatMap
        (TablesPy2.tpPerTable content filepath mode) = []
    apply flatMap_eq_nil_of
    intro tm htm
    simp [TablesPy2.tpPerTable, hpatTP, hTP tm htm]

set_option maxRecDepth 200000 in
/-- C5 witness: a table named Customers whose only dentist keyword sits in
the column identifier ProviderNPI yields no record in either table-name
scanner. -/
theorem c5_table_name_only_witness :
    SchemaAnalyzer.scan_tables_sql_file "f.sql"
      (some "USE [D]\nCREATE TABLE [dbo].[Customers]([ProviderNPI] [int]) GO")
      "dentists" = [] ∧
    TablesPy2.scan_sql_file "f.sql"
      (some "USE [D]\nCREATE TABLE [dbo].[Customers]([ProviderNPI] [int]) GO")
      "dentists" = [] :=
  c5_table_name_only "USE [D]\nCREATE TABLE [dbo].[Customers]([ProviderNPI] [int]) GO"
    "f.sql" "dentists" dentistsAlt (bounded dentistsAlt) rfl (by decide) rfl (by decide)

/-- C6: the CSV report and the JSON report serialize the same sequence of
match records in the same order — the CSV rows after the header and the
JSON objects stripped of their fixed keys both equal the per-record list
of database, table, matched term and file — so the two outputs differ
only in serialization. -/
theorem c6_report_equivalence (results : List MatchRecord) :
    (SchemaAnalyzer.print_report_rows results).tail =
      results.map (fun r => [r.database, r.table, r.matched, r.file]) ∧
    (SchemaAnalyzer.print_json_report_value results).map (fun obj => obj.map Prod.snd) =
      results.map (fun r => [r.database, r.table, r.matched, r.file]) := by
  refine ⟨rfl, ?_⟩
  induction results with
  | nil => rfl
  | cons r t ih => simp [SchemaAnalyzer.print_json_report_value, ih]

/-- C7: the database-name extractor takes group 1 of the first USE match
found by leftmost regex search; when the content has no USE match the
extracted name is the literal Unknown, and every record any of the
scanners produces from that content carries database Unknown. -/
theorem c7_unknown_database (content filepath mode : String)
    (h : reSearch useRE content.data = none) :
    getDatabase content = "Unknown" ∧
    (∀ r ∈ SchemaAnalyzer.scan_columns_sql_file filepath (some content) mode,
        r.database = "Unknown") ∧
    (∀ r ∈ SchemaAnalyzer.scan_tables_sql_file filepath (some content) mode,
        r.database = "Unknown") ∧
    (∀ r ∈ TablesPy2.scan_sql_file filepath (some content) mode,
        r.database = "Unknown") := by
  have hdb : getDatabase content = "Unknown" := by unfold getDatabase; rw [h]
  refine ⟨hdb, ?_, ?_, ?_⟩
  · intro r hr
    rw [show SchemaAnalyzer.scan_columns_sql_file filepath (some content) mode =
        (findIter saTableRE content.data).flatMap
          (SchemaAnalyzer.saColumnsPerTable content filepath mode) from rfl] at hr
    obtain ⟨tm, -, hr2⟩ := List.mem_flatMap.mp hr
    revert hr2
    unfold SchemaAnalyzer.saColumnsPerTable
    cases modePatternSAColumns mode with
    | none => intro hr2; simp at hr2
    | some pat =>
        intro hr2
        obtain ⟨mf, -, heq⟩ := List.mem_map.mp hr2
        rw [← heq]
        exact hdb
  · intro r hr
    rw [show SchemaAnalyzer.scan_tables_sql_file filepath (some content) mode =
        (findIter saTableRE content.data).flatMap
          (SchemaAnalyzer.saTablesPerTable content filepath mode) from rfl] at hr
    obtain ⟨tm, -, hr2⟩ := List.mem_flatMap.mp hr
    revert hr2
    unfold SchemaAnalyzer.saTablesPerTable
    cases modePatternSATables mode with
    | none => intro hr2; simp at hr2
    | some pat =>
        intro hr2
        obtain ⟨mf, -, heq⟩ := List.mem_map.mp hr2
        rw [← heq]
        exact hdb
  · intro r hr
    rw [show TablesPy2.scan_sql_file filepath (some content) mode =
        (findIter tpTableRE content.data).flatMap
          (TablesPy2.tpPerTable content filepath mode) from rfl] at hr
    obtain ⟨tm, -, hr2⟩ := List.mem_flatMap.mp hr
    revert hr2
    unfold TablesPy2.tpPerTable
    cases modePatternTP mode with
    | none => intro hr2; simp at hr2
    | some pat =>
        intro hr2
        have hr3 : r ∈ (match reSearch pat (tpTableName content tm).data with
            | some mf =>
                [(⟨getDatabase content, tpTableName content tm,
                  wholeMatch (tpTableName content tm).data mf, filepath⟩ : MatchRecord)]
            | none => ([] : List MatchRecord)) := hr2
        cases hres : reSearch pat (tpTableName content tm).data with
        | none => rw [hres] at hr3; simp at hr3
        | some mf =>
            rw [hres] at hr3
            have heq : r = ⟨getDatabase content, tpTableName content tm,
                wholeMatch (tpTableName content tm).data mf, filepath⟩ := by
              simpa using hr3
            rw [heq]
            exact hdb

set_option maxRecDepth 200000 in
/-- C7 witness: a content with no USE statement produces a record, and
that record carries database Unknown. -/
theorem c7_unknown_database_witness :
    reSearch useRE ("CREATE TABLE [dbo].[T]([ProviderNPI] [int] NULL) GO").data = none ∧
    SchemaAnalyzer.scan_columns_sql_file "g.sql"
        (some "CREATE TABLE [dbo].[T]([ProviderNPI] [int] NULL) GO") "dentists" =
      [⟨"Unknown", "T", "ProviderNPI", "g.sql"⟩] ∧
    (∀ r ∈ SchemaAnalyzer.scan_columns_sql_file "g.sql"
        (some "CREATE TABLE [dbo].[T]([ProviderNPI] [int] NULL) GO") "dentists",
      r.database = "Unknown") :=
  ⟨by decide, by decide,
   (c7_unknown_database "CREATE TABLE [dbo].[T]([ProviderNPI] [int] NULL) GO" "g.sql"
     "dentists" (by decide)).2.1⟩

/-- C8: with none of the dentists, networks, dsos flags set, the modes
list is empty and all three mode-flag scripts abort with the
argument-parsing SystemExit before any scanning, for every input: the
result does not depend on the paths or directories at all, so no scan
function is ever invoked. -/
theorem c8_missing_mode_aborts (json no_columns : Bool) (paths : List FSPath)
    (dirs : List (List (String × Option String))) :
    SchemaAnalyzer.main false false false json no_columns paths = .error .systemExit ∧
    ColumnsPy.main false false false json paths = .error .systemExit ∧
    TablesPy2.main false false false json dirs = .error .systemExit :=
  ⟨rfl, rfl, rfl⟩

/-- C9: scan_sql_file of npi_report.py exits unconditionally after
processing a readable file, so whenever the first .sql file the walk
encounters is readable, scan_directories propagates SystemExit — no
result list is ever produced and main terminates before printing any
report line. -/
theorem c9_exit_on_first_readable (dirs : List (List (String × Option String)))
    (e : String × Option String) (c : String)
    (h1 : (walkSql dirs).head? = some e) (h2 : e.2 = some c) :
    NpiReport.scan_directories dirs = .error .systemExit ∧
    NpiReport.main dirs = .error .systemExit := by
  have hscan : NpiReport.scan_directories dirs = .error .systemExit := by
    unfold NpiReport.scan_directories
    cases hw : walkSql dirs with
    | nil => rw [hw] at h1; simp at h1
    | cons a t =>
        rw [hw] at h1
        simp only [List.head?_cons, Option.some_inj] at h1
        subst h1
        simp [NpiReport.scanFilesAux, NpiReport.scan_sql_file, h2]
  refine ⟨hscan, ?_⟩
  show NpiReport.scan_directories dirs >>= _ = _
  rw [hscan]
  rfl

/-- C9 witness: a walk whose first .sql file is readable makes the
program abort with SystemExit. -/
theorem c9_exit_on_first_readable_witness :
    NpiReport.scan_directories [[("a.sql", some "USE [X]")]] = .error .systemExit ∧
    NpiReport.main [[("a.sql", some "USE [X]")]] = .error .systemExit :=
  c9_exit_on_first_readable [[("a.sql", some "USE [X]")]] ("a.sql", some "USE [X]")
    "USE [X]" (by decide) rfl

/-- C10: scan_sql_file of columns.py raises NameError (the undefined name
regex on line 34, outside the try/except) for every successfully read
file and returns normally — with the empty list — only when the read
itself fails; the NameError propagates out of scan_directories, aborting
the entire scan as soon as any scanned file is readable. -/
theorem c10_nameerror :
    (∀ filepath mode content,
        ColumnsPy.scan_sql_file filepath (some content) mode = .error .nameError) ∧
    (∀ filepath mode, ColumnsPy.scan_sql_file filepath none mode = .ok []) ∧
    (∀ paths mode, (∃ e ∈ scanList paths, e.2.isSome = true) →
        ColumnsPy.scan_directories paths mode = .error .nameError) :=
  ⟨fun _ _ _ => rfl, fun _ _ => rfl,
   fun paths mode h => columnsScanAbort mode (scanList paths) [] h⟩

/-- C10 witness: a single readable file path makes the columns.py scan
abort with NameError. -/
theorem c10_nameerror_witness :
    ColumnsPy.scan_directories [FSPath.file "a.sql" (some "USE [X]")] "dentists" =
      .error .nameError :=
  c10_nameerror.2.2 [FSPath.file "a.sql" (some "USE [X]")] "dentists"
    ⟨("a.sql", some "USE [X]"), by decide, rfl⟩
